import Mathlib

/-!
Verification of the Import Orchestrator of the influxdb3 `import` plugin
(`influxdata/import/import.py`).  The Python source is shallowly embedded:
timestamps are integers counting nanoseconds since the epoch, Python floats
that only enter harmless arithmetic are modelled as rationals, fallible code
returns `Option`/`Except`, and stateful loops are explicit recursions over a
list of per-iteration environment inputs.
-/

namespace ImportPlugin

/-- Configuration constants of the plugin (import.py lines 120-126). -/
def MAX_RETRIES : ℕ := 5

/-- Initial backoff delay in seconds (import.py line 121). -/
def INITIAL_BACKOFF_SECONDS : ℕ := 1

/-- Backoff delay cap in seconds (import.py line 122). -/
def MAX_BACKOFF_SECONDS : ℕ := 16

/-- Per-attempt HTTP request timeout in seconds (import.py line 123). -/
def REQUEST_TIMEOUT_SECONDS : ℕ := 30

/-- Boundary adjustment offset (import.py line 126).  In the source this is
the count of MICROSECONDS handed to `timedelta(microseconds=MICROSECOND_OFFSET)`. -/
def MICROSECOND_OFFSET : ℕ := 1

/-- One microsecond expressed in nanoseconds: the width of
`timedelta(microseconds=MICROSECOND_OFFSET)` at nanosecond resolution. -/
def microsecondOffsetNs : ℤ := 1000 * MICROSECOND_OFFSET

/-- A Python runtime value as it appears in parsed query-result JSON rows.
Python floats are modelled as rationals (none of the verified claims depends
on IEEE-754 rounding of field values). -/
inductive PyValue where
  | none : PyValue
  | bool (b : Bool) : PyValue
  | int (n : ℤ) : PyValue
  | float (q : ℚ) : PyValue
  | str (s : String) : PyValue
deriving DecidableEq, Repr

/-- Python `str.lower()`, written through the character list so that it is
kernel-reducible. -/
def pyLower (s : String) : String :=
  String.mk (s.data.map Char.toLower)

/-- Truth of `str(value).lower() == "true"` for a Python value, the test the
plugin applies to the `paused`/`canceled` flag fields (import.py lines
1425 and 1434).  `str` of a numeric value is made of digits, signs and dots
and is never the word `"true"`, so numerics map to `false` directly. -/
def pyStrIsTrue : PyValue → Bool
  | .bool b => b
  | .str s => pyLower s == "true"
  | _ => false

/-- One row returned by the `import_pause_state` query: the `paused` and
`canceled` fields, each possibly absent from the row dictionary. -/
structure PauseStateRow where
  paused : Option PyValue
  canceled : Option PyValue
deriving DecidableEq, Repr

/-- Python `row.get(key, False)` for an optional flag field. -/
def rowGetFlag (v : Option PyValue) : PyValue := v.getD (PyValue.bool false)

/-- Embedding of `check_pause_state` (import.py lines 1393-1440).  The
argument is the outcome of the checkpoint-store query
`SELECT paused, canceled, time FROM import_pause_state ... ORDER BY time DESC
LIMIT 1`: an exception (`Except.error`) or a list of row dictionaries whose
head, if any, is the most recent flag record.  The whole body is wrapped in
`try/except` returning `"running"` on any error. -/
def check_pause_state (queryResult : Except String (List PauseStateRow)) : String :=
  match queryResult with
  | .error _ => "running"
  | .ok rows =>
    match rows with
    | [] => "running"
    | row :: _ =>
      if pyStrIsTrue (rowGetFlag row.canceled) then "cancelled"
      else if pyStrIsTrue (rowGetFlag row.paused) then "paused"
      else "running"

/-- Embedding of the resume-cursor computation of `resume_incomplete_import`
(import.py lines 1799-1804): `resume_start = parse_timestamp(paused_at_time)`
followed by `resume_start + timedelta(microseconds=MICROSECOND_OFFSET)`,
expressed on nanosecond timestamps.  `pausedAtNs` is the checkpointed
data-timestamp T. -/
def resumeStartNs (pausedAtNs : ℤ) : ℤ := pausedAtNs + microsecondOffsetNs

/-! ## Boundary and density estimator (`sample_data_density`) -/

/-- Python `int(x)` on a real number: truncation toward zero. -/
def pyIntTrunc (q : ℚ) : ℤ := if 0 ≤ q then ⌊q⌋ else ⌈q⌉

/-- Candidate probe widths in seconds tested by `sample_data_density`
(import.py lines 755-760): 1 hour, 10 hours, 1 day, 5 days. -/
def testIntervals : List ℕ := [3600, 36000, 86400, 432000]

/-- Probe widths that fit inside the requested range (import.py lines
763-765): the filter keeps intervals with `secs <= total_duration`. -/
def viableIntervals (totalDuration : ℚ) : List ℕ :=
  testIntervals.filter (fun secs => (secs : ℚ) ≤ totalDuration)

/-- Offset from the range start of the `j`-th sample point (import.py line
779): the points are `start`, `start + delta/3` and `start + 2*delta/3`.
The `timedelta` division is modelled exactly over the rationals. -/
def samplePointOffset (delta : ℚ) (j : ℕ) : ℚ := delta * j / 3

/-- Rows-per-second samples collected by the probe loop of
`sample_data_density` (import.py lines 774-811).  `counts iv j` is the
outcome of the `COUNT(*)` probe of width `iv` seconds at sample point `j`:
`Option.none` models a query that raised or returned no series/values, and
`some c` a returned count `c`.  A probe is skipped when its end would exceed
the range end, and a sample is recorded only when its count is positive. -/
def densitySamples (start endT : ℚ) (counts : ℕ → ℕ → Option ℕ) : List ℚ :=
  (viableIntervals (endT - start)).flatMap (fun iv =>
    (List.range 3).filterMap (fun j =>
      let sampleStart := start + samplePointOffset (endT - start) j
      if sampleStart + (iv : ℚ) ≤ endT then
        match counts iv j with
        | some c => if 0 < c then some ((c : ℚ) / (iv : ℚ)) else none
        | Option.none => none
      else none))

/-- Embedding of `sample_data_density` (import.py lines 738-840).  Returns
the window width in whole seconds.  `2635200 = int(86400 * 30.5)` is the
clamp upper bound of line 833. -/
def sample_data_density (start endT : ℚ) (targetBatchSize : ℕ)
    (counts : ℕ → ℕ → Option ℕ) : ℤ :=
  let totalDuration := endT - start
  if viableIntervals totalDuration = [] then
    max 1 (pyIntTrunc totalDuration)
  else
    let samples := densitySamples start endT counts
    if samples = [] then 3600
    else
      let avgRowsPerSecond := samples.sum / (samples.length : ℚ)
      if avgRowsPerSecond = 0 then 86400
      else max 1 (min (pyIntTrunc ((targetBatchSize : ℚ) / avgRowsPerSecond)) 2635200)

/-! ## Source client retry loop (`query_source_influxdb`) -/

/-- Outcome of one HTTP attempt of `query_source_influxdb`.  `response`
carries the HTTP status code (the response body is abstracted to a string);
`networkError` is a `requests.exceptions.RequestException` raised before a
response exists (connection error, timeout); `otherError` is any exception
outside the `RequestException` hierarchy. -/
inductive HttpAttempt where
  | response (status : ℕ) (body : String) : HttpAttempt
  | networkError (msg : String) : HttpAttempt
  | otherError (msg : String) : HttpAttempt
deriving DecidableEq, Repr

/-- Python `response.raise_for_status()` raises `requests.HTTPError` (a
`RequestException`) exactly for status codes in `[400, 600)`.  An attempt
is "retryable" when it lands in the `except RequestException` branch
of import.py lines 361-372. -/
def attemptRetryable : HttpAttempt → Bool
  | .response status _ => 400 ≤ status && status < 600
  | .networkError _ => true
  | .otherError _ => false

/-- Embedding of the retry loop of `query_source_influxdb` (import.py lines
348-377).  `outcome i` is what the `i`-th HTTP attempt produces (attempts
are numbered from 0).  The result is the returned body or the propagated
error, together with the list of backoff sleeps performed (in seconds, in
order) and the number of HTTP attempts made. -/
def retryLoop (outcome : ℕ → HttpAttempt) (attemptIdx retryCount backoff : ℕ)
    (sleeps : List ℕ) : Except String String × List ℕ × ℕ :=
  if retryCount < MAX_RETRIES then
    match outcome attemptIdx with
    | .response status body =>
      if 400 ≤ status ∧ status < 600 then
        -- raise_for_status raised an HTTPError, caught as RequestException
        if retryCount + 1 ≥ MAX_RETRIES then
          (.error ("HTTP " ++ toString status), sleeps, attemptIdx + 1)
        else
          retryLoop outcome (attemptIdx + 1) (retryCount + 1)
            (min (backoff * 2) MAX_BACKOFF_SECONDS) (sleeps ++ [backoff])
      else
        (.ok body, sleeps, attemptIdx + 1)
    | .networkError msg =>
      if retryCount + 1 ≥ MAX_RETRIES then
        (.error msg, sleeps, attemptIdx + 1)
      else
        retryLoop outcome (attemptIdx + 1) (retryCount + 1)
          (min (backoff * 2) MAX_BACKOFF_SECONDS) (sleeps ++ [backoff])
    | .otherError msg =>
      -- `except Exception` branch: logged and re-raised immediately
      (.error msg, sleeps, attemptIdx + 1)
  else
    (.error "Query failed after all retries", sleeps, attemptIdx)
termination_by MAX_RETRIES - retryCount

/-- Embedding of `query_source_influxdb` from the start of its retry loop:
`retry_count = 0`, `backoff = INITIAL_BACKOFF_SECONDS` (import.py lines
348-349). -/
def query_source_influxdb (outcome : ℕ → HttpAttempt) :
    Except String String × List ℕ × ℕ :=
  retryLoop outcome 0 0 INITIAL_BACKOFF_SECONDS []

/-! ## Row transcoder (`convert_influxql_to_line_protocol` and helpers) -/

/-- Embedding of `check_influx_type_to_python_type` (import.py lines
843-857).  Mirrors Python `isinstance` semantics: `bool` is a subclass of
`int`, so a boolean value passes the `integer`, `unsigned` and `float`
checks; any `int` passes the `float` check via the special case of lines
853-854. -/
def check_influx_type_to_python_type (influxType : String) (value : PyValue) : Bool :=
  if influxType = "string" then
    match value with | .str _ => true | _ => false
  else if influxType = "boolean" then
    match value with | .bool _ => true | _ => false
  else if influxType = "integer" then
    match value with | .bool _ => true | .int _ => true | _ => false
  else if influxType = "unsigned" then
    match value with | .bool _ => true | .int _ => true | _ => false
  else if influxType = "float" then
    match value with | .bool _ => true | .int _ => true | .float _ => true | _ => false
  else false

/-- Embedding of `get_actual_influx_type` (import.py lines 860-873). -/
def get_actual_influx_type : PyValue → String
  | .bool _ => "boolean"
  | .int _ => "integer"
  | .float _ => "float"
  | _ => "string"

/-- Embedding of `sanitize_field_name` (import.py lines 876-884): replace
spaces with underscores.  Since the pattern is a single character, Python
`str.replace(" ", "_")` is exactly a character map; it is written that way
so the definition is kernel-reducible. -/
def sanitize_field_name (fieldName : String) : String :=
  String.mk (fieldName.data.map (fun c => if c = ' ' then '_' else c))

/-- Python `bool(value)` truthiness for the values a query row can hold. -/
def pyBool : PyValue → Bool
  | .none => false
  | .bool b => b
  | .int n => n ≠ 0
  | .float q => q ≠ 0
  | .str s => s ≠ ""

/-- Python `int(value)`, returning `Option.none` where Python raises
(`TypeError` for `None`, `ValueError` for a non-integer string).  Python
accepts a few string shapes (surrounding whitespace, underscores) that
`String.toInt?` rejects; those exotic literals are not exercised by any
verified claim. -/
def pyInt : PyValue → Option ℤ
  | .none => Option.none
  | .bool b => some (if b then 1 else 0)
  | .int n => some n
  | .float q => some (pyIntTrunc q)
  | .str s => s.toInt?

/-- Python `float(value)`, returning `Option.none` where Python raises.
String parsing is modelled only for integer literals; fractional string
literals are not exercised by any verified claim (a string value never
reaches the `float` branch of `write_field_to_builder`, because a string
never passes the declared-type check and its inferred actual type is
`string`). -/
def pyFloat : PyValue → Option ℚ
  | .none => Option.none
  | .bool b => some (if b then 1 else 0)
  | .int n => some (n : ℚ)
  | .float q => some q
  | .str s => (s.toInt?).map (fun n => (n : ℚ))

/-- Python `str(value)`.  A Python float prints in decimal notation while
`Rat` prints as a fraction; no verified claim evaluates `str` on a float. -/
def pyStr : PyValue → String
  | .none => "None"
  | .bool b => if b then "True" else "False"
  | .int n => toString n
  | .float q => toString q
  | .str s => s

/-- A typed field value as handed to the destination line builder. -/
inductive FieldVal where
  | b (v : Bool) : FieldVal
  | i (v : ℤ) : FieldVal
  | u (v : ℤ) : FieldVal
  | f (v : ℚ) : FieldVal
  | s (v : String) : FieldVal
deriving DecidableEq, Repr

/-- Model of the destination `LineBuilder`: a measurement name, the tag
pairs and field pairs accumulated in call order, and the optional
nanosecond timestamp set by `time_ns`. -/
structure LineBuilder where
  measurement : String
  tagsList : List (String × String)
  fields : List (String × FieldVal)
  timestampNs : Option ℤ
deriving DecidableEq, Repr

/-- Fresh builder, `LineBuilder(measurement)`. -/
def LineBuilder.mk0 (measurement : String) : LineBuilder :=
  ⟨measurement, [], [], Option.none⟩

/-- `builder.tag(key, value)`. -/
def LineBuilder.addTag (b : LineBuilder) (key value : String) : LineBuilder :=
  {b with tagsList := b.tagsList ++ [(key, value)]}

/-- The five typed branches of `write_field_to_builder` (import.py lines
995-1004), acting on a known field type.  Returns the updated builder and
the success flag; a failed Python conversion (`ValueError`/`TypeError`,
modelled by `Option.none`) is caught at lines 1010-1011 and yields
`false` with the builder unchanged. -/
def write_field_typed (b : LineBuilder) (fieldName : String) (value : PyValue) :
    String → LineBuilder × Bool
  | "boolean" =>
    ({b with fields := b.fields ++ [(sanitize_field_name fieldName, .b (pyBool value))]}, true)
  | "integer" =>
    match pyInt value with
    | some n => ({b with fields := b.fields ++ [(sanitize_field_name fieldName, .i n)]}, true)
    | Option.none => (b, false)
  | "float" =>
    match pyFloat value with
    | some q => ({b with fields := b.fields ++ [(sanitize_field_name fieldName, .f q)]}, true)
    | Option.none => (b, false)
  | "unsigned" =>
    match pyInt value with
    | some n => ({b with fields := b.fields ++ [(sanitize_field_name fieldName, .u n)]}, true)
    | Option.none => (b, false)
  | "string" =>
    ({b with fields := b.fields ++ [(sanitize_field_name fieldName, .s (pyStr value))]}, true)
  | _ => (b, false)

/-- Embedding of `write_field_to_builder` (import.py lines 986-1011).  For
an unknown declared type, the source recurses once with the inferred actual
type (lines 1005-1008); since `get_actual_influx_type` always yields one of
the five known type names, that recursion is unfolded here into a dispatch. -/
def write_field_to_builder (b : LineBuilder) (fieldName : String) (value : PyValue)
    (fieldType : String) : LineBuilder × Bool :=
  if fieldType = "boolean" ∨ fieldType = "integer" ∨ fieldType = "float" ∨
     fieldType = "unsigned" ∨ fieldType = "string" then
    write_field_typed b fieldName value fieldType
  else
    write_field_typed b fieldName value (get_actual_influx_type value)

/-- Embedding of `parse_timestamp_to_nanoseconds` (import.py lines 887-983)
restricted to the numeric cases: an `int` is taken to be nanoseconds
already, a `float` is seconds converted via `int(timestamp * 1e9)`.  The
RFC3339-string branch is not modelled (no verified claim exercises string
timestamps); it is mapped to 0 here and claim theorems only evaluate rows
with integer timestamps. -/
def parse_timestamp_to_nanoseconds : PyValue → ℤ
  | .int n => n
  | .bool b => pyIntTrunc ((if b then (1 : ℚ) else 0) * 1000000000)
  | .float q => pyIntTrunc (q * 1000000000)
  | _ => 0

/-- Python `col.endswith("_1")`, written through the character list so that
it is kernel-reducible. -/
def endsWithSuffix1 (s : String) : Bool :=
  s.data.reverse.take 2 == ['1', '_']

/-- Python membership test `key in dict` for an association list. -/
def dictContains (dict : List (String × String)) (key : String) : Bool :=
  (dict.lookup key).isSome

/-- Python `dict.get(key, default)` for an association list. -/
def dictGetD (dict : List (String × String)) (key default : String) : String :=
  (dict.lookup key).getD default

/-- Embedding of `analyze_column_schema` (import.py lines 1014-1084).
Walks the result-set columns and classifies each non-time column, returning
`(tag_columns, field_columns)` keyed by the column index:
`tag_columns` holds `(index, original_tag_name, renamed_tag_name)` and
`field_columns` holds `(index, column_name, field_type)`.  The dictionaries
of the source preserve insertion order, so association lists in column
order are a faithful model.  `values.head.get i` (the `values[0][i]` access
of line 1047, reached only when the result set is non-empty) is modelled
with a `PyValue.none` default. -/
def analyze_column_schema (columns : List String) (values : List (List PyValue))
    (tagKeys : List String) (fieldTypes : List (String × String))
    (tagRenames : List (String × String)) :
    List (ℕ × String × String) × List (ℕ × String × String) :=
  let firstRow := values.getD 0 []
  (List.range columns.length).foldl
    (fun acc i =>
      let col := columns.getD i ""
      if col = "time" then acc
      else
        let (tagCols, fieldCols) := acc
        -- tag classification (lines 1036-1062)
        let tagChoice : Option String :=
          if columns.getD i "" ∈ tagKeys ∧ ¬ dictContains fieldTypes col then
            some col
          else if col ∈ tagKeys ∧ dictContains fieldTypes col then
            (if ¬ (col ++ "_1") ∈ columns then
              (if check_influx_type_to_python_type (dictGetD fieldTypes col "")
                    (firstRow.getD i PyValue.none) then
                Option.none
              else some col)
            else Option.none)
          else if endsWithSuffix1 col then
            (let potential := col.dropRight 2
             if potential ∈ tagKeys ∧ dictContains fieldTypes potential then
               some potential
             else Option.none)
          else Option.none
        let tagCols :=
          match tagChoice with
          | some orig => tagCols ++ [(i, orig, dictGetD tagRenames orig orig)]
          | Option.none => tagCols
        -- field classification (lines 1064-1082)
        let isRenamedTagColumn : Bool :=
          endsWithSuffix1 col &&
            (let potential := col.dropRight 2
             decide (potential ∈ tagKeys) && dictContains fieldTypes potential)
        if isRenamedTagColumn then (tagCols, fieldCols)
        else
          let fieldCols :=
            if col ∈ tagKeys ∧ dictContains fieldTypes col then
              (if (col ++ "_1") ∈ columns then
                fieldCols ++ [(i, col, dictGetD fieldTypes col "")]
              else fieldCols)
            else if ¬ col ∈ tagKeys ∧ dictContains fieldTypes col then
              fieldCols ++ [(i, col, dictGetD fieldTypes col "")]
            else fieldCols
          (tagCols, fieldCols))
    ([], [])

/-- Embedding of `build_line_protocol_row` (import.py lines 1087-1157).
Rows are aligned with the column list, so `row[i]` is modelled with a
`PyValue.none` default.  Returns `Option.none` when the row yields no
usable field (line 1151). -/
def build_line_protocol_row (measurement : String) (row : List PyValue)
    (timeIdx : ℕ) (tagsDict : List (String × PyValue))
    (tagColumns : List (ℕ × String × String))
    (fieldColumns : List (ℕ × String × String))
    (tagRenames : List (String × String)) : Option LineBuilder :=
  let b := LineBuilder.mk0 measurement
  let timestamp := row.getD timeIdx PyValue.none
  -- tags from the out-of-band GROUP BY tag dictionary (lines 1108-1110)
  let b := tagsDict.foldl
    (fun b kv => b.addTag (dictGetD tagRenames kv.1 kv.1) (pyStr kv.2)) b
  -- tags from row columns (lines 1113-1116)
  let b := tagColumns.foldl
    (fun b t =>
      let value := row.getD t.1 PyValue.none
      if value ≠ PyValue.none then b.addTag t.2.2 (pyStr value) else b) b
  -- fields (lines 1119-1148)
  let (b, hasFields) := fieldColumns.foldl
    (fun acc fc =>
      let (b, hasFields) := acc
      let value := row.getD fc.1 PyValue.none
      if value = PyValue.none then (b, hasFields)
      else
        let typeMatches := check_influx_type_to_python_type fc.2.2 value
        let actualType :=
          if typeMatches then fc.2.2 else get_actual_influx_type value
        let fieldName :=
          if typeMatches then fc.2.1
          else fc.2.1 ++ "_" ++ get_actual_influx_type value
        let (b, ok) := write_field_to_builder b fieldName value actualType
        (b, hasFields || ok))
    (b, false)
  if ¬ hasFields then Option.none
  else some {b with timestampNs := some (parse_timestamp_to_nanoseconds timestamp)}

/-- One series of an InfluxQL query result: the `columns` list, the rows
(`values`, each aligned with `columns`) and the out-of-band GROUP BY tag
dictionary (`tags`). -/
structure SeriesData where
  columns : List String
  values : List (List PyValue)
  tags : List (String × PyValue)
deriving DecidableEq, Repr

/-- Embedding of `convert_influxql_to_line_protocol` (import.py lines
1160-1221): analyze the column schema, locate the time column, and build
one line per row, dropping rows with no usable field. -/
def convert_influxql_to_line_protocol (measurement : String) (series : SeriesData)
    (tagKeys : List String) (fieldTypes : List (String × String))
    (tagRenames : List (String × String)) : List LineBuilder :=
  if series.values = [] then []
  else
    let (tagColumns, fieldColumns) :=
      analyze_column_schema series.columns series.values tagKeys fieldTypes tagRenames
    let timeIdx := if "time" ∈ series.columns then series.columns.indexOf "time" else 0
    series.values.filterMap (fun row =>
      build_line_protocol_row measurement row timeIdx series.tags
        tagColumns fieldColumns tagRenames)

/-! ## Paused checkpoint cursor (`import_table`, pause branch) -/

/-- Rounding of a nanosecond timestamp to microsecond resolution with ties
to even, the effect of `datetime.fromtimestamp(max_time_ns / 1e9,
tz=timezone.utc).isoformat()` in import.py lines 1585-1587: Python
datetimes carry microseconds only and `fromtimestamp` rounds to the nearest
microsecond (half to even).  The binary-float division `/ 1e9` is modelled
as exact; for epoch magnitudes up to year 2262 its error stays below half a
microsecond on microsecond-aligned inputs, so the model agrees with CPython
wherever the claims are evaluated. -/
def fromtimestampNs (ns : ℤ) : ℤ :=
  let q := Int.ediv ns 1000
  let r := Int.emod ns 1000
  if r < 500 then 1000 * q
  else if 500 < r then 1000 * (q + 1)
  else if q % 2 = 0 then 1000 * q else 1000 * (q + 1)

/-- Collection of the non-null time values of the rows (import.py lines
1576-1580), expected as integer nanoseconds.  `Option.none` models the
`except` branch of lines 1588-1591: an out-of-range row access or a
non-integer time value (the subsequent `max`/`/ 1e9` arithmetic raises on
such values), which makes the whole extraction fall back to the cursor. -/
def timesFromValues (timeIdx : ℕ) (values : List (List PyValue)) :
    Option (List ℤ) :=
  values.foldr
    (fun row acc =>
      match acc with
      | Option.none => Option.none
      | some ts =>
        match row.get? timeIdx with
        | Option.none => Option.none
        | some PyValue.none => some ts
        | some (PyValue.int n) => some (n :: ts)
        | some _ => Option.none)
    (some [])

/-- Embedding of the `paused_at_time` computation of the pause branch of
`import_table` (import.py lines 1560-1591).  `result` is the most recently
fetched window's parsed query response, reduced to its
`result["results"][0].get("series", [])` list; `Option.none` is the state
before any window has been fetched.  The default is the current loop
cursor; when the last result has a first series with a `time` column and
non-empty rows whose time values extract to integers, the checkpoint is the
maximum of those values passed through `datetime.fromtimestamp`. -/
def pausedAtTimeNs (currentTimeNs : ℤ) (result : Option (List SeriesData)) : ℤ :=
  match result with
  | Option.none => currentTimeNs
  | some seriesList =>
    match seriesList with
    | [] => currentTimeNs
    | series :: _ =>
      if "time" ∈ series.columns ∧ series.values ≠ [] then
        match timesFromValues (series.columns.indexOf "time") series.values with
        | Option.none => currentTimeNs
        | some [] => currentTimeNs
        | some (t :: ts) => fromtimestampNs ((t :: ts).foldl max t)
      else currentTimeNs

/-! ## Per-table import state machine (`import_table`) -/

/-- Static inputs of one `import_table` invocation after boundary discovery
and window sizing (import.py lines 1443-1522): direction, adaptive window
width in nanoseconds, the discovered data boundaries, and the schema data
driving the transcoder. -/
structure LoopConfig where
  oldestFirst : Bool
  windowNs : ℤ
  actualStartNs : ℤ
  actualEndNs : ℤ
  measurement : String
  tagKeys : List String
  fieldTypes : List (String × String)
  tagRenames : List (String × String)
deriving Repr

/-- Environment of one iteration of the import loop: the outcome of the
pause-flag poll, the outcome of the window query (`Except.error` models
`query_source_influxdb` raising after retries; `Except.ok` carries
`result["results"][0].get("series", [])`), and whether the destination
write succeeds. -/
structure StepInput where
  flagResult : Except String (List PauseStateRow)
  queryOutcome : Except String (List SeriesData)
  writeOk : Bool

/-- One record appended to the `import_state` checkpoint series by
`write_import_state` (import.py lines 1352-1390): the status string, the
`rows_imported` counter, and the optional paused-at data timestamp (absent
values are stored as the empty string). -/
structure Checkpoint where
  status : String
  rowsImported : ℕ
  pausedAtTime : Option ℤ
deriving DecidableEq, Repr

/-- Mutable state of the import loop of `import_table` (import.py lines
1516-1526), extended with the trace of checkpoints written so far. -/
structure LoopState where
  currentTimeNs : ℤ
  rowsImported : ℕ
  lastResult : Option (List SeriesData)
  checkpoints : List Checkpoint
  errorsCount : ℕ

/-- Initial loop state of `import_table` (import.py lines 1517-1526):
cursor at the start boundary (end boundary for `newest_first`),
`rows_imported = 0`, no window fetched yet.  The counter starts at zero on
every invocation, including the invocations made by
`resume_incomplete_import`. -/
def initialLoopState (cfg : LoopConfig) : LoopState :=
  { currentTimeNs := if cfg.oldestFirst then cfg.actualStartNs else cfg.actualEndNs
    rowsImported := 0
    lastResult := Option.none
    checkpoints := []
    errorsCount := 0 }

/-- Embedding of the window loop of `import_table` (import.py lines
1527-1724), one recursion step per iteration, driven by the list of
per-iteration environments.  Returns the table's terminal status together
with the final state; when the environment list is exhausted before the
loop exits, the status is `"running"` (the loop would continue).  Each
branch mirrors the source: cancel and pause checkpoint and return
immediately; a query exception records the error and advances the cursor
without a break check; a successful query updates `result`, transcodes and
writes, checkpoints `in_progress` on success, then advances the cursor and
exits once it reaches the far boundary, checkpointing `completed`. -/
def runImportTable (cfg : LoopConfig) (st : LoopState) :
    List StepInput → String × LoopState
  | [] => ("running", st)
  | inp :: rest =>
    let pauseState := check_pause_state inp.flagResult
    if pauseState = "cancelled" then
      ("cancelled",
        {st with checkpoints :=
          st.checkpoints ++ [⟨"cancelled", st.rowsImported, Option.none⟩]})
    else if pauseState = "paused" then
      ("paused",
        {st with checkpoints :=
          st.checkpoints ++
            [⟨"paused", st.rowsImported,
              some (pausedAtTimeNs st.currentTimeNs st.lastResult)⟩]})
    else
      let windowStart :=
        if cfg.oldestFirst then st.currentTimeNs
        else max (st.currentTimeNs - cfg.windowNs) cfg.actualStartNs
      let windowEnd :=
        if cfg.oldestFirst then min (st.currentTimeNs + cfg.windowNs) cfg.actualEndNs
        else st.currentTimeNs
      let newCur := if cfg.oldestFirst then windowEnd else windowStart
      match inp.queryOutcome with
      | .error _ =>
        -- `except` branch (lines 1691-1702): record error, advance, continue
        runImportTable cfg
          {st with errorsCount := st.errorsCount + 1, currentTimeNs := newCur} rest
      | .ok seriesList =>
        let st1 := {st with lastResult := some seriesList}
        let st2 :=
          match seriesList with
          | [] => st1
          | series :: _ =>
            let lineProtocol :=
              convert_influxql_to_line_protocol cfg.measurement series
                cfg.tagKeys cfg.fieldTypes cfg.tagRenames
            -- write_to_destination returns success without writing when the
            -- builder list is empty (lines 1231-1232)
            if lineProtocol.isEmpty || inp.writeOk then
              {st1 with rowsImported := st1.rowsImported + lineProtocol.length,
                        checkpoints := st1.checkpoints ++
                          [Checkpoint.mk "in_progress"
                            (st1.rowsImported + lineProtocol.length) Option.none]}
            else {st1 with errorsCount := st1.errorsCount + 1}
        let st3 := {st2 with currentTimeNs := newCur}
        if (cfg.oldestFirst ∧ cfg.actualEndNs ≤ newCur) ∨
           (¬ cfg.oldestFirst ∧ newCur ≤ cfg.actualStartNs) then
          ("completed",
            {st3 with checkpoints :=
              st3.checkpoints ++ [⟨"completed", st3.rowsImported, Option.none⟩]})
        else runImportTable cfg st3 rest

/-- One full `import_table` invocation: the loop run from the initial state
(import.py line 1522 resets `rows_imported` to 0 unconditionally). -/
def importTableRun (cfg : LoopConfig) (inputs : List StepInput) :
    String × LoopState :=
  runImportTable cfg (initialLoopState cfg) inputs

/-! ## Orchestrator effect traces (`start_import`, dry run) -/

/-- Externally visible effects of the orchestrator: read-only HTTP queries
against the source, read-only queries against the local checkpoint store,
and writes to the destination store (`write_sync`/`write_sync_to_db`),
tagged with the series they write. -/
inductive Effect where
  | sourceQuery (description : String) : Effect
  | checkpointRead (description : String) : Effect
  | destWrite (series : String) : Effect
deriving DecidableEq, Repr

/-- Whether an effect mutates persisted state. -/
def Effect.isDestWrite : Effect → Bool
  | .destWrite _ => true
  | _ => false

/-- Effects of `perform_preflight_checks` (import.py lines 568-602): one
source query (`SHOW MEASUREMENTS` via `get_source_measurements`). -/
def preflightEffects : List Effect :=
  [.sourceQuery "SHOW MEASUREMENTS"]

/-- Effects of `find_actual_data_boundaries` (import.py lines 642-735):
two read-only source queries. -/
def findBoundariesEffects (measurement : String) : List Effect :=
  [.sourceQuery ("first " ++ measurement), .sourceQuery ("last " ++ measurement)]

/-- Effects of `estimate_import_time` (import.py lines 444-565): per
measurement, boundary discovery plus, when data was found, one `COUNT(*)`
source query.  `hasData m` is whether boundaries were found for `m`. -/
def estimateImportTimeEffects (measurements : List String)
    (hasData : String → Bool) : List Effect :=
  measurements.flatMap (fun m =>
    findBoundariesEffects m ++
      (if hasData m then [.sourceQuery ("COUNT " ++ m)] else []))

/-- Effects of `generate_import_plan` (import.py lines 1893-1997): per
measurement, the two schema queries (`SHOW FIELD KEYS`, `SHOW TAG KEYS`),
both read-only source queries. -/
def generateImportPlanEffects (measurements : List String) : List Effect :=
  measurements.flatMap (fun m =>
    [.sourceQuery ("SHOW FIELD KEYS " ++ m), .sourceQuery ("SHOW TAG KEYS " ++ m)])

/-- Effects of the non-dry table loop of `start_import` (import.py lines
2135-2199): tables are imported in sequence and the loop stops at the
first table whose result is `cancelled` or `paused`.  `importTableEff m`
abstracts the effect trace of `import_table` on table `m` (source queries,
data writes and `import_state` checkpoint writes, cf. `runImportTable`);
`tableOutcome m` is its terminal status. -/
def importLoopEffects (importTableEff : String → List Effect)
    (tableOutcome : String → String) : List String → List Effect
  | [] => []
  | m :: rest =>
    importTableEff m ++
      (if tableOutcome m = "cancelled" ∨ tableOutcome m = "paused" then []
       else importLoopEffects importTableEff tableOutcome rest)

/-- Embedding of the effect trace of `start_import` (import.py lines
2000-2242).  In order: unless `dry_run`, the saved run configuration and
the initial pause-flag record (each branch returning early on failure);
the pre-flight source checks; on pre-flight success the sampling-based
time estimate; then either the dry-run plan (read-only) and immediate
return, or the initial `pending` state rows followed by the per-table
table-import loop. -/
def startImportEffects (dryRun : Bool) (saveConfigOk pauseInitOk preflightOk : Bool)
    (measurements : List String) (hasData : String → Bool)
    (importTableEff : String → List Effect) (tableOutcome : String → String) :
    List Effect :=
  (if ¬ dryRun then
    [Effect.destWrite "import_config"] ++
      (if ¬ saveConfigOk then [] else
        [Effect.destWrite "import_pause_state"])
   else []) ++
  (if ¬ dryRun ∧ ¬ (saveConfigOk ∧ pauseInitOk) then [] else
    preflightEffects ++
      (if ¬ preflightOk then [] else
        estimateImportTimeEffects measurements hasData ++
          (if dryRun then generateImportPlanEffects measurements
           else measurements.map (fun _ => Effect.destWrite "import_state") ++
             importLoopEffects importTableEff tableOutcome measurements)))

/-! ## Theorems -/

/-- C1 (counterexample): the claim states that the resume path computes the
new query start as exactly T plus one tick, a tick being one nanosecond at
the data's nanosecond resolution.  At checkpoint T = 0 the code computes
`0 + timedelta(microseconds=1)`, i.e. 1000 nanoseconds, not `0 + 1`. -/
theorem resume_tick_counterexample : resumeStartNs 0 ≠ 0 + 1 := by decide

/-- C1 (amended): the resume path computes the new query start as exactly
T plus one microsecond (`MICROSECOND_OFFSET` microseconds, i.e. 1000
nanoseconds), so it never re-queries any timestamp ≤ T, but nanosecond
timestamps strictly inside (T, T + 1000 ns), such as T + 1, lie in the
skipped gap between the checkpoint and the resume start. -/
theorem resume_start_one_microsecond :
    ∀ T : ℤ, resumeStartNs T = T + 1000 ∧ T < resumeStartNs T ∧ T + 1 < resumeStartNs T := by
  intro T
  simp only [resumeStartNs, microsecondOffsetNs, MICROSECOND_OFFSET]
  norm_num

/-- C2: when the most recent pause-flag record has both `paused=true` and
`canceled=true`, `check_pause_state` returns `"cancelled"` and never
`"paused"`; moreover the paused branch is only reached when the canceled
flag does not test true. -/
theorem cancel_precedence (row : PauseStateRow) (rest : List PauseStateRow)
    (_hp : pyStrIsTrue (rowGetFlag row.paused) = true)
    (hc : pyStrIsTrue (rowGetFlag row.canceled) = true) :
    check_pause_state (.ok (row :: rest)) = "cancelled" ∧
    check_pause_state (.ok (row :: rest)) ≠ "paused" ∧
    (∀ (row2 : PauseStateRow) (rest2 : List PauseStateRow),
      check_pause_state (.ok (row2 :: rest2)) = "paused" →
        pyStrIsTrue (rowGetFlag row2.canceled) = false) := by
  refine ⟨by simp [check_pause_state, hc], by simp [check_pause_state, hc], ?_⟩
  intro row2 rest2 h
  by_cases hcc : pyStrIsTrue (rowGetFlag row2.canceled) = true
  · simp [check_pause_state, hcc] at h
  · simpa using hcc

/-- C2 (witness): concrete flag record with both booleans set. -/
theorem cancel_precedence_witness :
    check_pause_state (.ok [PauseStateRow.mk (some (.bool true)) (some (.bool true))]) =
      "cancelled" :=
  (cancel_precedence ⟨some (.bool true), some (.bool true)⟩ [] (by decide) (by decide)).1

/-- C10: when the pause/cancel flag query raises (checkpoint store
unreachable, malformed result), `check_pause_state` returns `"running"`; a
store read failure can never spuriously pause or cancel an import.  The
poll itself never raises: it is modelled as a total function whose error
case is this branch. -/
theorem pause_poll_error_returns_running :
    ∀ msg : String, check_pause_state (.error msg) = "running" := fun _ => rfl

/-- C3: for any range with `start < end`, any target batch size and any
probe outcomes (all-zero counts, failing probes, or no viable probe
interval at all), the window width computed by `sample_data_density` lies
in [1 second, 30.5 days] = [1, 2635200] seconds; and when the probe loop
ran (a viable interval existed) but collected no samples, the width is
exactly one hour (3600 seconds). -/
theorem window_clamp (start endT : ℚ) (targetBatchSize : ℕ)
    (counts : ℕ → ℕ → Option ℕ) (h : start < endT) :
    (1 ≤ sample_data_density start endT targetBatchSize counts ∧
      sample_data_density start endT targetBatchSize counts ≤ 2635200) ∧
    (viableIntervals (endT - start) ≠ [] → densitySamples start endT counts = [] →
      sample_data_density start endT targetBatchSize counts = 3600) := by
  by_cases hv : viableIntervals (endT - start) = []
  · have h36 : endT - start < 3600 := by
      by_contra hle
      push_neg at hle
      have hmem : (3600 : ℕ) ∈ viableIntervals (endT - start) := by
        simp only [viableIntervals, testIntervals, List.mem_filter]
        refine ⟨by norm_num, ?_⟩
        simpa using hle
      rw [hv] at hmem
      simp at hmem
    have hpos : (0 : ℚ) ≤ endT - start := by linarith
    have htr : pyIntTrunc (endT - start) ≤ 3599 := by
      have : pyIntTrunc (endT - start) = ⌊endT - start⌋ := by simp [pyIntTrunc, hpos]
      rw [this]
      have : ⌊endT - start⌋ < 3600 := by
        rw [Int.floor_lt]
        exact_mod_cast h36
      omega
    refine ⟨⟨?_, ?_⟩, ?_⟩
    · simp [sample_data_density, hv]
    · simp only [sample_data_density, hv, if_true]
      have : max 1 (pyIntTrunc (endT - start)) ≤ 3599 := by
        exact max_le (by norm_num) htr
      omega
    · intro hne
      exact absurd hv hne
  · by_cases hs : densitySamples start endT counts = []
    · refine ⟨⟨?_, ?_⟩, fun _ _ => ?_⟩ <;> simp [sample_data_density, hv, hs]
    · refine ⟨?_, fun _ hs2 => absurd hs2 hs⟩
      by_cases ha : (densitySamples start endT counts).sum /
          ((densitySamples start endT counts).length : ℚ) = 0
      · constructor <;> simp [sample_data_density, hv, hs, ha]
      · constructor
        · simp [sample_data_density, hv, hs, ha]
        · simp only [sample_data_density, hv, hs, ha, if_false]
          exact max_le (by norm_num) (min_le_right _ _)

/-- C3 (witness): a two-hour range whose probes all fail yields exactly the
one-hour default, inside the clamp. -/
theorem window_clamp_witness :
    (0 : ℚ) < 7200 ∧
    (1 ≤ sample_data_density 0 7200 2000 (fun _ _ => Option.none) ∧
      sample_data_density 0 7200 2000 (fun _ _ => Option.none) ≤ 2635200) ∧
    sample_data_density 0 7200 2000 (fun _ _ => Option.none) = 3600 := by
  have h := window_clamp 0 7200 2000 (fun _ _ => Option.none) (by norm_num)
  exact ⟨by norm_num, h.1,
    h.2 (by norm_num [viableIntervals, testIntervals]) (by simp [densitySamples])⟩

/-- Helper: along any execution of `retryLoop` started with the backoff and
sleep-trace invariant (`backoff = min (2^retryCount) 16`, sleeps so far a
prefix of `[1, 2, 4, 8]`), the final sleep trace is a prefix of
`[1, 2, 4, 8]` and at most `MAX_RETRIES - retryCount` further attempts are
made. -/
theorem retryLoop_bound_aux (outcome : ℕ → HttpAttempt) :
    ∀ (i k b : ℕ) (s : List ℕ), b = min (2 ^ k) 16 → s = [1, 2, 4, 8].take k → k ≤ 4 →
      (∃ n, n ≤ 4 ∧ (retryLoop outcome i k b s).2.1 = [1, 2, 4, 8].take n) ∧
      (retryLoop outcome i k b s).2.2 ≤ i + (MAX_RETRIES - k) := by
  intro i k b s
  induction i, k, b, s using retryLoop.induct outcome with
  | case1 i k b s hk status body hout hst hlast =>
    intro hb hs hk4
    rw [retryLoop, if_pos hk]
    simp only [hout]
    rw [if_pos hst, if_pos hlast]
    refine ⟨⟨k, hk4, hs⟩, ?_⟩
    simp only [MAX_RETRIES] at hk ⊢
    omega
  | case2 i k b s hk status body hout hst hlast ih =>
    intro hb hs hk4
    rw [retryLoop, if_pos hk]
    simp only [hout]
    rw [if_pos hst, if_neg hlast]
    have hk3 : k ≤ 3 := by simp only [MAX_RETRIES, ge_iff_le, not_le] at hlast; omega
    have hb' : b * 2 ⊓ MAX_BACKOFF_SECONDS = min (2 ^ (k + 1)) 16 := by
      subst hb
      interval_cases k <;> decide
    have hs' : s ++ [b] = [1, 2, 4, 8].take (k + 1) := by
      subst hb hs
      interval_cases k <;> decide
    obtain ⟨⟨n, hn, hsl⟩, hat⟩ := ih hb' hs' (by omega)
    refine ⟨⟨n, hn, hsl⟩, le_trans hat ?_⟩
    simp only [MAX_RETRIES]
    omega
  | case3 i k b s hk status body hout hst =>
    intro hb hs hk4
    rw [retryLoop, if_pos hk]
    simp only [hout]
    rw [if_neg hst]
    refine ⟨⟨k, hk4, hs⟩, ?_⟩
    simp only [MAX_RETRIES] at hk ⊢
    omega
  | case4 i k b s hk msg hout hlast =>
    intro hb hs hk4
    rw [retryLoop, if_pos hk]
    simp only [hout]
    rw [if_pos hlast]
    refine ⟨⟨k, hk4, hs⟩, ?_⟩
    simp only [MAX_RETRIES] at hk ⊢
    omega
  | case5 i k b s hk msg hout hlast ih =>
    intro hb hs hk4
    rw [retryLoop, if_pos hk]
    simp only [hout]
    rw [if_neg hlast]
    have hk3 : k ≤ 3 := by simp only [MAX_RETRIES, ge_iff_le, not_le] at hlast; omega
    have hb' : b * 2 ⊓ MAX_BACKOFF_SECONDS = min (2 ^ (k + 1)) 16 := by
      subst hb
      interval_cases k <;> decide
    have hs' : s ++ [b] = [1, 2, 4, 8].take (k + 1) := by
      subst hb hs
      interval_cases k <;> decide
    obtain ⟨⟨n, hn, hsl⟩, hat⟩ := ih hb' hs' (by omega)
    refine ⟨⟨n, hn, hsl⟩, le_trans hat ?_⟩
    simp only [MAX_RETRIES]
    omega
  | case6 i k b s hk msg hout =>
    intro hb hs hk4
    rw [retryLoop, if_pos hk]
    simp only [hout]
    refine ⟨⟨k, hk4, hs⟩, ?_⟩
    simp only [MAX_RETRIES] at hk ⊢
    omega
  | case7 i k b s hk =>
    intro hb hs hk4
    rw [retryLoop, if_neg hk]
    exact ⟨⟨k, hk4, hs⟩, Nat.le_add_right i _⟩

/-- Helper: a retryable failure (HTTP 4xx/5xx or network error) with at
least one retry left consumes one attempt, sleeps the current backoff, and
doubles the backoff up to the cap. -/
theorem retryLoop_fail_step (outcome : ℕ → HttpAttempt) (i k b : ℕ) (s : List ℕ)
    (hk : k + 1 < MAX_RETRIES) (hfail : attemptRetryable (outcome i) = true) :
    retryLoop outcome i k b s =
      retryLoop outcome (i + 1) (k + 1) (min (b * 2) MAX_BACKOFF_SECONDS) (s ++ [b]) := by
  have hklt : k < MAX_RETRIES := by omega
  have hnlast : ¬ k + 1 ≥ MAX_RETRIES := by omega
  rw [retryLoop, if_pos hklt]
  rcases hout : outcome i with ⟨status, body⟩ | msg | msg
  · rw [hout] at hfail
    simp only [attemptRetryable, Bool.and_eq_true, decide_eq_true_eq] at hfail
    dsimp only
    rw [if_pos hfail, if_neg hnlast]
  · dsimp only
    rw [if_neg hnlast]
  · rw [hout] at hfail
    simp [attemptRetryable] at hfail

/-- Helper: the fifth retryable failure (retry counter at 4) exhausts the
retries and propagates the error, with no further sleep. -/
theorem retryLoop_fail_last (outcome : ℕ → HttpAttempt) (i b : ℕ) (s : List ℕ)
    (hfail : attemptRetryable (outcome i) = true) :
    ∃ e, retryLoop outcome i (MAX_RETRIES - 1) b s = (Except.error e, s, i + 1) := by
  have hklt : MAX_RETRIES - 1 < MAX_RETRIES := by simp [MAX_RETRIES]
  have hlast : MAX_RETRIES - 1 + 1 ≥ MAX_RETRIES := by simp [MAX_RETRIES]
  rw [retryLoop, if_pos hklt]
  rcases hout : outcome i with ⟨status, body⟩ | msg | msg
  · rw [hout] at hfail
    simp only [attemptRetryable, Bool.and_eq_true, decide_eq_true_eq] at hfail
    dsimp only
    rw [if_pos hfail, if_pos hlast]
    exact ⟨_, rfl⟩
  · dsimp only
    rw [if_pos hlast]
    exact ⟨msg, rfl⟩
  · rw [hout] at hfail
    simp [attemptRetryable] at hfail

/-- C5: every source query makes at most `MAX_RETRIES = 5` HTTP attempts;
the backoff sleeps between failed attempts follow the doubling sequence
capped at 16, i.e. they always form a prefix of `[1, 2, 4, 8]` seconds;
when all five attempts fail with a retryable error — and a 4xx response is
retryable exactly like a 5xx, each consuming one attempt — the error
propagates as an exception after exactly 5 attempts with sleeps
`[1, 2, 4, 8]`; and each attempt carries the 30-second request timeout. -/
theorem retry_policy (outcome : ℕ → HttpAttempt) :
    ((query_source_influxdb outcome).2.2 ≤ MAX_RETRIES) ∧
    (∃ n, n ≤ 4 ∧ (query_source_influxdb outcome).2.1 = [1, 2, 4, 8].take n) ∧
    ((∀ i, i < MAX_RETRIES → attemptRetryable (outcome i) = true) →
      (∃ e, (query_source_influxdb outcome).1 = Except.error e) ∧
      (query_source_influxdb outcome).2.1 = [1, 2, 4, 8] ∧
      (query_source_influxdb outcome).2.2 = MAX_RETRIES) ∧
    (∀ status body, 400 ≤ status → status < 600 →
      attemptRetryable (HttpAttempt.response status body) = true) ∧
    REQUEST_TIMEOUT_SECONDS = 30 := by
  have haux := retryLoop_bound_aux outcome 0 0 1 [] (by decide) (by decide) (by decide)
  refine ⟨by simpa [query_source_influxdb] using haux.2,
          by simpa [query_source_influxdb] using haux.1, ?_, ?_, rfl⟩
  · intro hfail
    have h0 := retryLoop_fail_step outcome 0 0 1 [] (by decide) (hfail 0 (by decide))
    have h1 := retryLoop_fail_step outcome 1 1 2 [1] (by decide) (hfail 1 (by decide))
    have h2 := retryLoop_fail_step outcome 2 2 4 [1, 2] (by decide) (hfail 2 (by decide))
    have h3 := retryLoop_fail_step outcome 3 3 8 [1, 2, 4] (by decide) (hfail 3 (by decide))
    obtain ⟨e, h4⟩ := retryLoop_fail_last outcome 4 16 [1, 2, 4, 8] (hfail 4 (by decide))
    have h0' : retryLoop outcome 0 0 1 [] = retryLoop outcome 1 1 2 [1] := by
      simpa [MAX_BACKOFF_SECONDS, Nat.min_def] using h0
    have h1' : retryLoop outcome 1 1 2 [1] = retryLoop outcome 2 2 4 [1, 2] := by
      simpa [MAX_BACKOFF_SECONDS, Nat.min_def] using h1
    have h2' : retryLoop outcome 2 2 4 [1, 2] = retryLoop outcome 3 3 8 [1, 2, 4] := by
      simpa [MAX_BACKOFF_SECONDS, Nat.min_def] using h2
    have h3' : retryLoop outcome 3 3 8 [1, 2, 4] = retryLoop outcome 4 4 16 [1, 2, 4, 8] := by
      simpa [MAX_BACKOFF_SECONDS, Nat.min_def] using h3
    have h4' : retryLoop outcome 4 4 16 [1, 2, 4, 8] = (Except.error e, [1, 2, 4, 8], 5) := by
      simpa [MAX_RETRIES] using h4
    have hchain : query_source_influxdb outcome = (Except.error e, [1, 2, 4, 8], 5) := by
      rw [query_source_influxdb]
      rw [show INITIAL_BACKOFF_SECONDS = 1 from rfl]
      rw [h0', h1', h2', h3', h4']
    rw [hchain]
    exact ⟨⟨e, rfl⟩, rfl, rfl⟩
  · intro status body h4 h6
    simp [attemptRetryable, h4, h6]

/-- C5 (witness): a source that always fails with a connection error is
retried 5 times with sleeps 1, 2, 4, 8 and then propagates the error. -/
theorem retry_policy_witness :
    (query_source_influxdb (fun _ => HttpAttempt.networkError "refused")).2.1 =
        [1, 2, 4, 8] ∧
    (query_source_influxdb (fun _ => HttpAttempt.networkError "refused")).2.2 =
        MAX_RETRIES :=
  ((retry_policy (fun _ => HttpAttempt.networkError "refused")).2.2.1
    (fun _ _ => rfl)).2

/-- Helper: in the conflict scenario (tag `room` and field `room`, the tag
column surfaced by the source as `room_1`), each transcoded row keeps both
columns: the tag under `room_tag` and the field under `room`. -/
theorem build_row_conflict (r : ℤ × String × String) :
    build_line_protocol_row "home"
      [PyValue.int r.1, PyValue.str r.2.1, PyValue.str r.2.2] 0 []
      [(2, "room", "room_tag")] [(1, "room", "string")] [("room", "room_tag")] =
      some (LineBuilder.mk "home" [("room_tag", r.2.2)]
        [("room", FieldVal.s r.2.1)] (some r.1)) := rfl

set_option maxHeartbeats 1600000 in
/-- C6: for the schema in which the name `room` is both a tag key and a
field key (the result set then carries the field as column `room` and the
renamed tag as column `room_1`), transcoding any result set with values for
both produces records holding the tag under the renamed key `room_tag` and
the field under its original name `room`, as two distinct columns — neither
is dropped. -/
theorem tag_field_conflict_survival (rows : List (ℤ × String × String)) :
    convert_influxql_to_line_protocol "home"
      ⟨["time", "room", "room_1"],
        rows.map (fun r => [PyValue.int r.1, PyValue.str r.2.1, PyValue.str r.2.2]), []⟩
      ["room"] [("room", "string")] [("room", "room_tag")] =
      rows.map (fun r =>
        LineBuilder.mk "home" [("room_tag", r.2.2)]
          [("room", FieldVal.s r.2.1)] (some r.1)) ∧
    "room_tag" ≠ "room" := by
  refine ⟨?_, by decide⟩
  cases rows with
  | nil => rfl
  | cons r rs =>
    have hne : (r :: rs).map
        (fun r => [PyValue.int r.1, PyValue.str r.2.1, PyValue.str r.2.2]) ≠ [] := by
      simp
    unfold convert_influxql_to_line_protocol
    rw [if_neg hne]
    have hfm : ∀ l : List (ℤ × String × String),
        (l.map (fun r => [PyValue.int r.1, PyValue.str r.2.1, PyValue.str r.2.2])).filterMap
          (fun row => build_line_protocol_row "home" row 0 []
            [(2, "room", "room_tag")] [(1, "room", "string")] [("room", "room_tag")]) =
        l.map (fun r =>
          LineBuilder.mk "home" [("room_tag", r.2.2)]
            [("room", FieldVal.s r.2.1)] (some r.1)) := by
      intro l
      induction l with
      | nil => rfl
      | cons a t iht =>
        rw [List.map_cons, List.map_cons,
          @List.filterMap_cons_some _ _
            (fun row => build_line_protocol_row "home" row 0 []
              [(2, "room", "room_tag")] [(1, "room", "string")] [("room", "room_tag")])
            _ _ _ (build_row_conflict a), iht]
    exact hfm (r :: rs)

/-- Helper: writing a non-null value under its own inferred actual type
always succeeds, appending exactly one field. -/
theorem write_field_actual (b : LineBuilder) (name : String) (v : PyValue)
    (hv : v ≠ PyValue.none) :
    ∃ fv, write_field_to_builder b name v (get_actual_influx_type v) =
      ({b with fields := b.fields ++ [(sanitize_field_name name, fv)]}, true) := by
  cases v with
  | none => exact absurd rfl hv
  | bool b0 => exact ⟨FieldVal.b b0, rfl⟩
  | int n => exact ⟨FieldVal.i n, rfl⟩
  | float q => exact ⟨FieldVal.f q, rfl⟩
  | str s => exact ⟨FieldVal.s s, rfl⟩

/-- Helper: writing a value that passes the declared-type check always
succeeds, appending exactly one field under the (sanitized) given name. -/
theorem write_field_matched (b : LineBuilder) (name ftype : String) (v : PyValue)
    (hm : check_influx_type_to_python_type ftype v = true) :
    ∃ fv, write_field_to_builder b name v ftype =
      ({b with fields := b.fields ++ [(sanitize_field_name name, fv)]}, true) := by
  unfold check_influx_type_to_python_type at hm
  by_cases h1 : ftype = "string"
  · subst h1
    cases v with
    | str s => exact ⟨FieldVal.s s, rfl⟩
    | none => simp at hm
    | bool b0 => simp at hm
    | int n => simp at hm
    | float q => simp at hm
  · by_cases h2 : ftype = "boolean"
    · subst h2
      cases v with
      | bool b0 => exact ⟨FieldVal.b b0, rfl⟩
      | none => simp at hm
      | str s => simp at hm
      | int n => simp at hm
      | float q => simp at hm
    · by_cases h3 : ftype = "integer"
      · subst h3
        cases v with
        | bool b0 => exact ⟨FieldVal.i (if b0 then 1 else 0), rfl⟩
        | int n => exact ⟨FieldVal.i n, rfl⟩
        | none => simp at hm
        | str s => simp at hm
        | float q => simp at hm
      · by_cases h4 : ftype = "unsigned"
        · subst h4
          cases v with
          | bool b0 => exact ⟨FieldVal.u (if b0 then 1 else 0), rfl⟩
          | int n => exact ⟨FieldVal.u n, rfl⟩
          | none => simp at hm
          | str s => simp at hm
          | float q => simp at hm
        · by_cases h5 : ftype = "float"
          · subst h5
            cases v with
            | bool b0 => exact ⟨FieldVal.f (if b0 then 1 else 0), rfl⟩
            | int n => exact ⟨FieldVal.f (n : ℚ), rfl⟩
            | float q => exact ⟨FieldVal.f q, rfl⟩
            | none => simp at hm
            | str s => simp at hm
          · simp [h1, h2, h3, h4, h5] at hm

/-- C7: in a row with one declared field column, a non-null value whose
runtime type does not match the declared type is emitted (never dropped and
never raising) under the disambiguated name `{original}_{actualType}`; a
value that matches keeps the original field name; and a row in which no
field is successfully written (here: the value is null) produces no output
record at all. -/
theorem type_mismatch_fallback (m col ftype : String) (v : PyValue) (ts : ℤ)
    (hv : v ≠ PyValue.none) :
    (check_influx_type_to_python_type ftype v = false →
      ∃ b, build_line_protocol_row m [PyValue.int ts, v] 0 [] [] [(1, col, ftype)] [] =
          some b ∧
        b.fields.map Prod.fst =
          [sanitize_field_name (col ++ "_" ++ get_actual_influx_type v)]) ∧
    (check_influx_type_to_python_type ftype v = true →
      ∃ b, build_line_protocol_row m [PyValue.int ts, v] 0 [] [] [(1, col, ftype)] [] =
          some b ∧
        b.fields.map Prod.fst = [sanitize_field_name col]) ∧
    build_line_protocol_row m [PyValue.int ts, PyValue.none] 0 [] [] [(1, col, ftype)] [] =
      Option.none := by
  refine ⟨?_, ?_, rfl⟩
  · intro hm
    obtain ⟨fv, hw⟩ := write_field_actual (LineBuilder.mk0 m)
      (col ++ "_" ++ get_actual_influx_type v) v hv
    simp only [LineBuilder.mk0] at hw
    refine ⟨{ measurement := m, tagsList := [],
              fields := [(sanitize_field_name (col ++ "_" ++ get_actual_influx_type v), fv)],
              timestampNs := some ts }, ?_, by simp⟩
    simp [build_line_protocol_row, hm, hw, hv, LineBuilder.mk0,
      parse_timestamp_to_nanoseconds]
  · intro hm
    obtain ⟨fv, hw⟩ := write_field_matched (LineBuilder.mk0 m) col ftype v hm
    simp only [LineBuilder.mk0] at hw
    refine ⟨{ measurement := m, tagsList := [],
              fields := [(sanitize_field_name col, fv)],
              timestampNs := some ts }, ?_, by simp⟩
    simp [build_line_protocol_row, hm, hw, hv, LineBuilder.mk0,
      parse_timestamp_to_nanoseconds]

/-- C4 (counterexample): the claim states the checkpointed `paused_at_time`
equals the maximum row timestamp of the last fetched window.  For a window
whose maximum timestamp is 1499 ns, the code stores the result of
`datetime.fromtimestamp(1499 / 1e9)` — a microsecond-resolution datetime,
i.e. 1000 ns — not 1499 ns. -/
theorem paused_checkpoint_counterexample :
    pausedAtTimeNs 0
      (some [SeriesData.mk ["time", "v"] [[PyValue.int 1499, PyValue.int 5]] []]) ≠
      1499 := by decide

/-- C4 (amended): when the per-table loop observes the `paused` flag, it
returns immediately — no further window is queried, whatever later
iteration inputs would have held — checkpointing status `paused` with
cursor `pausedAtTimeNs`; that cursor is the current loop cursor when no
window has been fetched yet, and otherwise the maximum timestamp among the
rows of the most recently fetched window rounded to microsecond resolution
(the checkpoint is stored through a microsecond-precision datetime), which
is exactly the maximum whenever that maximum is microsecond-aligned. -/
theorem paused_checkpoint_cursor (cfg : LoopConfig) (st : LoopState)
    (inp : StepInput) (rest : List StepInput)
    (h : check_pause_state inp.flagResult = "paused") :
    (runImportTable cfg st (inp :: rest) =
      ("paused",
        {st with checkpoints := st.checkpoints ++
          [Checkpoint.mk "paused" st.rowsImported
            (some (pausedAtTimeNs st.currentTimeNs st.lastResult))]})) ∧
    (∀ cur : ℤ, pausedAtTimeNs cur Option.none = cur) ∧
    (∀ (cur : ℤ) (cols : List String) (vals : List (List PyValue))
        (restSeries : List SeriesData) (tagsD : List (String × PyValue))
        (t : ℤ) (ts : List ℤ),
      "time" ∈ cols → vals ≠ [] →
      timesFromValues (cols.indexOf "time") vals = some (t :: ts) →
      pausedAtTimeNs cur (some (SeriesData.mk cols vals tagsD :: restSeries)) =
        fromtimestampNs ((t :: ts).foldl max t)) ∧
    (∀ n : ℤ, (1000 : ℤ) ∣ n → fromtimestampNs n = n) := by
  refine ⟨?_, fun _ => rfl, ?_, ?_⟩
  · simp only [runImportTable, h]
    rw [if_neg (by decide : ¬ ("paused" : String) = "cancelled")]
    simp only [if_true]
  · intro cur cols vals restSeries tagsD t ts htime hvals hext
    simp only [pausedAtTimeNs]
    rw [if_pos ⟨htime, hvals⟩, hext]
  · intro n hdvd
    obtain ⟨k, rfl⟩ := hdvd
    have h1 : Int.ediv (1000 * k) 1000 = k := Int.mul_ediv_cancel_left k (by norm_num)
    have h2 : Int.emod (1000 * k) 1000 = 0 := Int.mul_emod_right 1000 k
    simp only [fromtimestampNs, h1, h2]
    norm_num

/-- C4 (witness): a pause flag observed before the first window is fetched
checkpoints the initial cursor and returns at once. -/
theorem paused_checkpoint_cursor_witness :
    runImportTable (LoopConfig.mk true 1000000000 0 5000000000 "m" [] [] [])
      (LoopState.mk 0 0 Option.none [] 0)
      [StepInput.mk (.ok [PauseStateRow.mk (some (.bool true)) (some (.bool false))])
        (.ok []) true] =
      ("paused", LoopState.mk 0 0 Option.none [Checkpoint.mk "paused" 0 (some 0)] 0) :=
  (paused_checkpoint_cursor _ _ _ _ (by decide)).1

/-- C7 (witness): a string value in a field declared `integer` is written
under `f_string` rather than dropped. -/
theorem type_mismatch_fallback_witness :
    ∃ b, build_line_protocol_row "t" [PyValue.int 0, PyValue.str "x"] 0 [] []
        [(1, "f", "integer")] [] = some b ∧
      b.fields.map Prod.fst =
        [sanitize_field_name ("f" ++ "_" ++ get_actual_influx_type (PyValue.str "x"))] :=
  (type_mismatch_fallback "t" "f" "integer" (PyValue.str "x") 0 (by decide)).1 (by decide)

/-- Helper: appending a checkpoint whose counter dominates every earlier
checkpoint keeps the `rowsImported` trace non-decreasing. -/
theorem checkpoint_append_pairwise (cs : List Checkpoint) (s : String) (r : ℕ)
    (p : Option ℤ) (h1 : List.Pairwise (· ≤ ·) (cs.map Checkpoint.rowsImported))
    (h2 : ∀ c ∈ cs, c.rowsImported ≤ r) :
    List.Pairwise (· ≤ ·) ((cs ++ [Checkpoint.mk s r p]).map Checkpoint.rowsImported) := by
  rw [List.map_append, List.pairwise_append]
  refine ⟨h1, by simp, ?_⟩
  intro a ha b hb
  simp only [List.map_cons, List.map_nil, List.mem_singleton] at hb
  subst hb
  simp only [List.mem_map] at ha
  obtain ⟨c, hc, rfl⟩ := ha
  exact h2 c hc

/-- Helper: after such an append every checkpoint is still dominated by the
appended counter. -/
theorem checkpoint_append_bound (cs : List Checkpoint) (s : String) (r : ℕ)
    (p : Option ℤ) (h2 : ∀ c ∈ cs, c.rowsImported ≤ r) :
    ∀ c ∈ cs ++ [Checkpoint.mk s r p], c.rowsImported ≤ r := by
  intro c hc
  rcases List.mem_append.mp hc with h | h
  · exact h2 c h
  · simp only [List.mem_singleton] at h
    subst h
    exact le_refl r

/-- Helper: loop invariant of `runImportTable` — if the checkpoints written
so far are non-decreasing in `rowsImported` and all dominated by the
current counter, the same holds of the final state, whatever the remaining
iteration inputs. -/
theorem runImportTable_mono_aux (cfg : LoopConfig) :
    ∀ (inputs : List StepInput) (st : LoopState),
      List.Pairwise (· ≤ ·) (st.checkpoints.map Checkpoint.rowsImported) →
      (∀ c ∈ st.checkpoints, c.rowsImported ≤ st.rowsImported) →
      List.Pairwise (· ≤ ·)
        (((runImportTable cfg st inputs).2).checkpoints.map Checkpoint.rowsImported) ∧
      ∀ c ∈ ((runImportTable cfg st inputs).2).checkpoints,
        c.rowsImported ≤ ((runImportTable cfg st inputs).2).rowsImported := by
  intro inputs
  induction inputs with
  | nil => intro st h1 h2; exact ⟨h1, h2⟩
  | cons inp rest ih =>
    intro st h1 h2
    simp only [runImportTable]
    by_cases hc : check_pause_state inp.flagResult = "cancelled"
    · rw [if_pos hc]
      exact ⟨checkpoint_append_pairwise _ _ _ _ h1 h2,
        checkpoint_append_bound _ _ _ _ h2⟩
    · rw [if_neg hc]
      by_cases hpp : check_pause_state inp.flagResult = "paused"
      · rw [if_pos hpp]
        exact ⟨checkpoint_append_pairwise _ _ _ _ h1 h2,
          checkpoint_append_bound _ _ _ _ h2⟩
      · rw [if_neg hpp]
        cases hq : inp.queryOutcome with
        | error e =>
          dsimp only
          exact ih _ h1 h2
        | ok seriesList =>
          dsimp only
          cases seriesList with
          | nil =>
            dsimp only
            split <;> split <;>
              first
                | exact ⟨checkpoint_append_pairwise _ _ _ _ h1 h2,
                    checkpoint_append_bound _ _ _ _ h2⟩
                | exact ih _ h1 h2
          | cons series restSeries =>
            dsimp only
            have h2' : ∀ c ∈ st.checkpoints, c.rowsImported ≤ st.rowsImported +
                (convert_influxql_to_line_protocol cfg.measurement series
                  cfg.tagKeys cfg.fieldTypes cfg.tagRenames).length :=
              fun c hcm => le_trans (h2 c hcm) (Nat.le_add_right _ _)
            by_cases hwb : ((convert_influxql_to_line_protocol cfg.measurement series
                cfg.tagKeys cfg.fieldTypes cfg.tagRenames).isEmpty || inp.writeOk) = true
            · rw [if_pos hwb]
              split <;> split <;>
                first
                  | exact ⟨checkpoint_append_pairwise _ _ _ _
                        (checkpoint_append_pairwise _ _ _ _ h1 h2')
                        (checkpoint_append_bound _ _ _ _ h2'),
                      checkpoint_append_bound _ _ _ _
                        (checkpoint_append_bound _ _ _ _ h2')⟩
                  | exact ih _ (checkpoint_append_pairwise _ _ _ _ h1 h2')
                      (checkpoint_append_bound _ _ _ _ h2')
            · rw [if_neg hwb]
              split <;> split <;>
                first
                  | exact ⟨checkpoint_append_pairwise _ _ _ _ h1 h2,
                      checkpoint_append_bound _ _ _ _ h2⟩
                  | exact ih _ h1 h2

/-- C8 (counterexample): the claim states that `rowsImported` values in a
table's checkpoint history are non-decreasing including across a pause
followed by a resume of the same run.  Concretely: a first `import_table`
invocation imports one window of one row (checkpoint `in_progress`, 1) and
is then paused (checkpoint `paused`, 1, cursor 1000000 ns); the resume path
re-invokes `import_table` from `resumeStartNs 1000000`, which resets
`rows_imported` to 0 (import.py line 1522), so a pause observed there
checkpoints `paused` with 0 — the history 1, 1, 0 decreases. -/
theorem rows_imported_not_monotone_across_resume :
    ¬ List.Pairwise (· ≤ ·)
      ((((importTableRun
            (LoopConfig.mk true 1000000000 0 3000000000 "m" [] [("v", "integer")] [])
            [StepInput.mk (.ok [])
                (.ok [SeriesData.mk ["time", "v"] [[PyValue.int 1000000, PyValue.int 7]] []])
                true,
              StepInput.mk
                (.ok [PauseStateRow.mk (some (.bool true)) (some (.bool false))])
                (.ok []) true]).2).checkpoints ++
        ((importTableRun
            (LoopConfig.mk true 1000000000 (resumeStartNs 1000000) 3000000000 "m"
              [] [("v", "integer")] [])
            [StepInput.mk
                (.ok [PauseStateRow.mk (some (.bool true)) (some (.bool false))])
                (.ok []) true]).2).checkpoints).map Checkpoint.rowsImported) := by
  decide

/-- C8 (amended): within a single `import_table` invocation the sequence of
`rowsImported` values written to the checkpoint store, in write order, is
non-decreasing; across a pause followed by a resume the counter restarts at
zero, so the claim holds per invocation but not across a resume. -/
theorem rows_imported_monotone_within_run (cfg : LoopConfig)
    (inputs : List StepInput) :
    List.Pairwise (· ≤ ·)
      (((importTableRun cfg inputs).2).checkpoints.map Checkpoint.rowsImported) :=
  (runImportTable_mono_aux cfg inputs (initialLoopState cfg)
    (by simp [initialLoopState]) (by simp [initialLoopState])).1

/-- Helper: the time-estimation pass only reads from the source. -/
theorem estimate_effects_read (ms : List String) (hasData : String → Bool) :
    ∀ e ∈ estimateImportTimeEffects ms hasData, e.isDestWrite = false := by
  intro e he
  simp only [estimateImportTimeEffects, List.mem_flatMap] at he
  obtain ⟨m, _, he⟩ := he
  rcases List.mem_append.mp he with h | h
  · simp only [findBoundariesEffects, List.mem_cons, List.mem_singleton] at h
    rcases h with h | h | h
    · subst h; rfl
    · subst h; rfl
    · exact absurd h (List.not_mem_nil e)
  · revert h
    split
    · intro h
      simp only [List.mem_singleton] at h
      subst h; rfl
    · intro h
      exact absurd h (List.not_mem_nil e)

/-- Helper: the dry-run plan generation only reads from the source. -/
theorem plan_effects_read (ms : List String) :
    ∀ e ∈ generateImportPlanEffects ms, e.isDestWrite = false := by
  intro e he
  simp only [generateImportPlanEffects, List.mem_flatMap] at he
  obtain ⟨m, _, he⟩ := he
  simp only [List.mem_cons, List.mem_singleton] at he
  rcases he with h | h | h
  · subst h; rfl
  · subst h; rfl
  · exact absurd h (List.not_mem_nil e)

/-- C9: with `dry_run` set, `start_import` performs no destination writes
and creates no checkpoint records — no `import_config` row, no
`import_pause_state` row, no `import_state` rows and no data writes; every
effect of its trace is a read. -/
theorem dry_run_no_writes (saveConfigOk pauseInitOk preflightOk : Bool)
    (measurements : List String) (hasData : String → Bool)
    (importTableEff : String → List Effect) (tableOutcome : String → String) :
    ∀ e ∈ startImportEffects true saveConfigOk pauseInitOk preflightOk measurements
        hasData importTableEff tableOutcome, e.isDestWrite = false := by
  intro e he
  simp only [startImportEffects, not_true, if_false, false_and, ite_false,
    List.nil_append, if_true, ite_true] at he
  rcases List.mem_append.mp he with h | h
  · simp only [preflightEffects, List.mem_singleton] at h
    subst h; rfl
  · revert h
    split
    · intro h
      exact absurd h (List.not_mem_nil e)
    · intro h
      rcases List.mem_append.mp h with h | h
      · exact estimate_effects_read measurements hasData e h
      · exact plan_effects_read measurements e h

/-- C9 (witness): a concrete dry-run trace over one table contains only
source reads; its first effect, the measurement enumeration, is not a
write. -/
theorem dry_run_no_writes_witness :
    (Effect.sourceQuery "SHOW MEASUREMENTS").isDestWrite = false :=
  dry_run_no_writes true true true ["cpu"] (fun _ => true) (fun _ => [])
    (fun _ => "completed") (Effect.sourceQuery "SHOW MEASUREMENTS") (by decide)

end ImportPlugin
